import Mathlib

/-!
Verification of the prevalence-rate / bootstrap confidence-interval module
(`src/mental_health/utils/prevelance_rate_CI.py`) of the Survey_analysis
repository.

The module is embedded shallowly:
* a pandas `DataFrame` of survey responses becomes a `List Record`;
* Python floats become exact rationals `ℚ` (the arithmetic performed by the
  code is ordinary field arithmetic on ratios of counts);
* `np.random.RandomState` becomes an explicit generator state threaded
  through the computation (a deterministic pseudo-random generator seeded
  once from `random_state`, modelled here by a linear congruential step);
* `DataFrame.sample(n=…, replace=True, random_state=rng)` becomes
  `sampleWithReplacement`, which draws `n` indices from the generator;
* `np.percentile` (default linear interpolation) becomes `percentile`;
* `np.std` (population standard deviation) appears in
  `analyze_disorder_prevalence` as the square root of the population
  variance of the bootstrap rates.
-/

/-- One row of the survey table: columns `SurveyID`, `questiontext`,
`AnswerText`. -/
structure Record where
  SurveyID : Int
  questiontext : String
  AnswerText : String
deriving DecidableEq

/-- The literal main-question text used by `calculate_disorder_prevalence`. -/
def mainQuestion : String := "Do you currently have a mental health disorder?"

/-- The literal follow-up-question text used by
`calculate_disorder_prevalence`. -/
def followUpQuestion : String := "If yes, what condition(s) have you been diagnosed with?"

/-- Embedding of `calculate_prevalence_rate`:
returns `0.0` when `population == 0`; otherwise
`diagnosis_rate = diagnosed_cases / population`,
`condition_rate = specific_condition_count / total_condition_reports` if
`total_condition_reports > 0` else `0`, and the result is their product.
The `diagnosed_cases > population` branch of the source only emits a log
warning and does not alter the value. -/
def calculate_prevalence_rate (population diagnosed_cases total_condition_reports specific_condition_count : ℕ) : ℚ :=
  if population = 0 then 0
  else
    let diagnosis_rate : ℚ := (diagnosed_cases : ℚ) / (population : ℚ)
    let condition_rate : ℚ :=
      if 0 < total_condition_reports then
        (specific_condition_count : ℚ) / (total_condition_reports : ℚ)
      else 0
    diagnosis_rate * condition_rate

/-- The `SurveyID == 2016` cohort filter applied by
`calculate_disorder_prevalence` and `bootstrap_prevalence_rate`. -/
def cohort2016 (df : List Record) : List Record :=
  df.filter (fun r => r.SurveyID == 2016)

/-- The four counts derived by `calculate_disorder_prevalence` from the
2016 cohort: population, diagnosed cases, total condition reports,
reports of the named disorder. -/
def disorderCounts (df : List Record) (disorder_name : String) : ℕ × ℕ × ℕ × ℕ :=
  let df_2016 := cohort2016 df
  let population := (df_2016.filter (fun r => r.questiontext == mainQuestion)).length
  let diagnosed_cases :=
    (df_2016.filter (fun r => r.questiontext == mainQuestion && r.AnswerText == "Yes")).length
  let total_condition_reports :=
    (df_2016.filter (fun r => r.questiontext == followUpQuestion)).length
  let disorder_reports :=
    (df_2016.filter (fun r => r.questiontext == followUpQuestion && r.AnswerText == disorder_name)).length
  (population, diagnosed_cases, total_condition_reports, disorder_reports)

/-- Embedding of `calculate_disorder_prevalence`: filter to the 2016
cohort, derive the four counts, delegate to `calculate_prevalence_rate`. -/
def calculate_disorder_prevalence (df : List Record) (disorder_name : String) : ℚ :=
  let c := disorderCounts df disorder_name
  calculate_prevalence_rate c.1 c.2.1 c.2.2.1 c.2.2.2

/-- The prevalence rate is never negative, for any inputs. -/
lemma calculate_prevalence_rate_nonneg
    (p d t s : ℕ) : 0 ≤ calculate_prevalence_rate p d t s := by
  unfold calculate_prevalence_rate
  split
  · exact le_refl 0
  · have h1 : (0 : ℚ) ≤ (d : ℚ) / (p : ℚ) := by positivity
    have h2 : (0 : ℚ) ≤ (if 0 < t then (s : ℚ) / (t : ℚ) else 0) := by
      split
      · positivity
      · exact le_refl 0
    exact mul_nonneg h1 h2

/-- When each numerator is bounded by its denominator the rate is at
most `1` (this also covers `p = 0`, where the result is `0`). -/
lemma calculate_prevalence_rate_le_one
    (p d t s : ℕ) (hd : d ≤ p) (hs : s ≤ t) :
    calculate_prevalence_rate p d t s ≤ 1 := by
  unfold calculate_prevalence_rate
  split
  · exact zero_le_one
  · rename_i hp
    have hp' : (0 : ℚ) < (p : ℚ) := by
      exact_mod_cast Nat.pos_of_ne_zero hp
    have h1 : (d : ℚ) / (p : ℚ) ≤ 1 := by
      rw [div_le_one hp']
      exact_mod_cast hd
    have h1' : (0 : ℚ) ≤ (d : ℚ) / (p : ℚ) := by positivity
    have h2 : (if 0 < t then (s : ℚ) / (t : ℚ) else 0) ≤ 1 := by
      split
      · rename_i ht
        have ht' : (0 : ℚ) < (t : ℚ) := by exact_mod_cast ht
        rw [div_le_one ht']
        exact_mod_cast hs
      · exact zero_le_one
    have h2' : (0 : ℚ) ≤ (if 0 < t then (s : ℚ) / (t : ℚ) else 0) := by
      split
      · positivity
      · exact le_refl 0
    calc (d : ℚ) / (p : ℚ) * (if 0 < t then (s : ℚ) / (t : ℚ) else 0)
        ≤ 1 * 1 := mul_le_mul h1 h2 h2' zero_le_one
      _ = 1 := one_mul 1

/-- Filtering on a conjunction of Boolean predicates keeps at most as many
rows as filtering on the first conjunct alone. -/
lemma length_filter_and_le {α : Type} (l : List α) (p q : α → Bool) :
    (l.filter (fun a => p a && q a)).length ≤ (l.filter p).length := by
  induction l with
  | nil => simp
  | cons x xs ih =>
    by_cases hp : p x <;> by_cases hq : q x <;>
      simp [List.filter_cons, hp, hq] <;> omega

/-- C1: for positive population and positive total condition reports the
returned rate is exactly `(diagnosed_cases / population) *
(specific_condition_count / total_condition_reports)`; in particular the
scenario `population=100, diagnosed_cases=40, total_condition_reports=50,
specific_condition_count=10` yields exactly `0.08`. -/
theorem prevalence_rate_formula
    (p d t s : ℕ) (hp : 0 < p) (ht : 0 < t) :
    calculate_prevalence_rate p d t s = ((d : ℚ) / (p : ℚ)) * ((s : ℚ) / (t : ℚ)) := by
  unfold calculate_prevalence_rate
  rw [if_neg (Nat.pos_iff_ne_zero.mp hp), if_pos ht]

/-- Witness for C1: the scenario of the spec, evaluated concretely, giving
`0.4 * 0.2 = 0.08`. -/
theorem prevalence_rate_formula_witness :
    calculate_prevalence_rate 100 40 50 10 = ((40 : ℚ) / 100) * ((10 : ℚ) / 50) ∧
      calculate_prevalence_rate 100 40 50 10 = (8 : ℚ) / 100 :=
  ⟨prevalence_rate_formula 100 40 50 10 (by norm_num) (by norm_num),
   (prevalence_rate_formula 100 40 50 10 (by norm_num) (by norm_num)).trans (by norm_num)⟩

/-- C2: the function is total (the embedding returns a value for every
input): with `population = 0` it returns `0` via the guard, and with
`total_condition_reports = 0` the condition rate is `0`, hence the result
is `0` for every `specific_condition_count`. -/
theorem prevalence_rate_guards
    (p d t s : ℕ) :
    (p = 0 → calculate_prevalence_rate p d t s = 0) ∧
      (t = 0 → calculate_prevalence_rate p d t s = 0) := by
  constructor
  · intro hp
    unfold calculate_prevalence_rate
    rw [if_pos hp]
  · intro ht
    unfold calculate_prevalence_rate
    split
    · rfl
    · rw [if_neg (by omega : ¬ 0 < t), mul_zero]

/-- Witness for C2: the spec scenario `population=0, diagnosed_cases=5,
total_condition_reports=10, specific_condition_count=3` returns `0`, and a
case with `total_condition_reports=0` returns `0`. -/
theorem prevalence_rate_guards_witness :
    calculate_prevalence_rate 0 5 10 3 = 0 ∧ calculate_prevalence_rate 7 4 0 9 = 0 :=
  ⟨(prevalence_rate_guards 0 5 10 3).1 rfl, (prevalence_rate_guards 7 4 0 9).2 rfl⟩

/-- Generator state of the pseudo-random source: `np.random.RandomState`
seeded once from `random_state` and threaded through every draw.  The
concrete number stream is modelled by a linear congruential step; the
claims depend only on it being a deterministic function of the state. -/
structure RandomState where
  state : ℕ
deriving DecidableEq

/-- One draw from the generator: produces a number and the advanced
state. -/
def RandomState.next (r : RandomState) : ℕ × RandomState :=
  let s := (r.state * 1103515245 + 12345) % 2147483648
  (s, ⟨s⟩)

/-- Embedding of `rows.sample(n=…, replace=True, random_state=rng)`: draw
`n` indices from the generator, each selecting one row of `rows`, and
return the sample together with the advanced generator state. -/
def sampleWithReplacement (rows : List Record) : ℕ → RandomState → List Record × RandomState
  | 0, r => ([], r)
  | Nat.succ n, r =>
    let draw := r.next
    let rest := sampleWithReplacement rows n draw.2
    (match rows.get? (draw.1 % rows.length) with
     | some x => x :: rest.1
     | none => rest.1, rest.2)

/-- The sample size actually passed to `DataFrame.sample`: the source
writes `n=sample_size if sample_size else len(rows)`, so Python truthiness
sends both `None` and `0` to the group length. -/
def effSize (sample_size : Option ℕ) (len : ℕ) : ℕ :=
  match sample_size with
  | some (Nat.succ k) => Nat.succ k
  | _ => len

/-- Embedding of one `DataFrame.sample` call of the bootstrap loop, with
the size argument `sample_size if sample_size else len(rows)`. -/
def pdSample (rows : List Record) (sample_size : Option ℕ) (r : RandomState) :
    List Record × RandomState :=
  sampleWithReplacement rows (effSize sample_size rows.length) r

/-- The bootstrap iteration loop: each iteration resamples the main rows,
then the follow-up rows, concatenates, recomputes the disorder prevalence
on the concatenation and appends the rate, threading one generator state
throughout. -/
def bootstrapLoop (main follow : List Record) (sample_size : Option ℕ) (disorder_name : String) :
    ℕ → RandomState → List ℚ × RandomState
  | 0, r => ([], r)
  | Nat.succ n, r =>
    let bmain := pdSample main sample_size r
    let bfollow := pdSample follow sample_size bmain.2
    let rate := calculate_disorder_prevalence (bmain.1 ++ bfollow.1) disorder_name
    let rest := bootstrapLoop main follow sample_size disorder_name n bfollow.2
    (rate :: rest.1, rest.2)

/-- Embedding of `bootstrap_prevalence_rate`: the original rate on the
full dataset, and the list of `n_iterations` bootstrap rates produced by
`bootstrapLoop` from a generator seeded once with `random_state`. -/
def bootstrap_prevalence_rate (df : List Record) (disorder_name : String)
    (n_iterations : ℕ) (sample_size : Option ℕ) (random_state : ℕ) : ℚ × List ℚ :=
  let original_rate := calculate_disorder_prevalence df disorder_name
  let df_2016 := cohort2016 df
  let main_question_df := df_2016.filter (fun r => r.questiontext == mainQuestion)
  let follow_up_df := df_2016.filter (fun r => r.questiontext == followUpQuestion)
  (original_rate,
   (bootstrapLoop main_question_df follow_up_df sample_size disorder_name
      n_iterations ⟨random_state⟩).1)

/-- In `calculate_disorder_prevalence` each numerator counts a subset of
the rows its denominator counts. -/
lemma disorderCounts_le (df : List Record) (disorder_name : String) :
    (disorderCounts df disorder_name).2.1 ≤ (disorderCounts df disorder_name).1 ∧
      (disorderCounts df disorder_name).2.2.2 ≤ (disorderCounts df disorder_name).2.2.1 := by
  unfold disorderCounts
  exact ⟨length_filter_and_le _ _ _, length_filter_and_le _ _ _⟩

/-- Any value of `calculate_disorder_prevalence` lies in `[0, 1]`. -/
lemma calculate_disorder_prevalence_mem (df : List Record) (disorder_name : String) :
    0 ≤ calculate_disorder_prevalence df disorder_name ∧
      calculate_disorder_prevalence df disorder_name ≤ 1 := by
  unfold calculate_disorder_prevalence
  exact ⟨calculate_prevalence_rate_nonneg _ _ _ _,
    calculate_prevalence_rate_le_one _ _ _ _
      (disorderCounts_le df disorder_name).1 (disorderCounts_le df disorder_name).2⟩

/-- C6 counterexample: with `population = 1`, `diagnosed_cases = 2`,
`total_condition_reports = 1`, `specific_condition_count = 1` both
denominators are positive yet the computed rate is `2`, outside `[0, 1]`:
the claim that positivity of the denominators alone bounds the rate is
false, precisely because the `diagnosed_cases > population` anomaly is
only warned about, never clamped. -/
theorem prevalence_rate_above_one_counterexample :
    ¬ calculate_prevalence_rate 1 2 1 1 ≤ 1 := by
  have h : calculate_prevalence_rate 1 2 1 1 = 2 := by
    unfold calculate_prevalence_rate
    norm_num
  rw [h]
  norm_num

/-- C6 amended: the rate is in `[0, 1]` whenever the denominators are
positive AND each numerator is at most its denominator (`diagnosed_cases ≤
population`, `specific_condition_count ≤ total_condition_reports`); it is
`0` when the population is `0`.  Without the numerator bounds the
unclamped computation can exceed `1`. -/
theorem prevalence_rate_bounds
    (p d t s : ℕ) (hd : d ≤ p) (hs : s ≤ t) :
    (0 ≤ calculate_prevalence_rate p d t s ∧ calculate_prevalence_rate p d t s ≤ 1) ∧
      (p = 0 → calculate_prevalence_rate p d t s = 0) := by
  refine ⟨⟨calculate_prevalence_rate_nonneg p d t s,
    calculate_prevalence_rate_le_one p d t s hd hs⟩, ?_⟩
  intro hp
  unfold calculate_prevalence_rate
  rw [if_pos hp]

/-- Witness for C6 (amended): concrete bounded inputs evaluated at
`population=100, diagnosed_cases=40, total=50, specific=10`. -/
theorem prevalence_rate_bounds_witness :
    (0 ≤ calculate_prevalence_rate 100 40 50 10 ∧
        calculate_prevalence_rate 100 40 50 10 ≤ 1) ∧
      ((100 : ℕ) = 0 → calculate_prevalence_rate 100 40 50 10 = 0) :=
  prevalence_rate_bounds 100 40 50 10 (by norm_num) (by norm_num)

/-- C8: for fixed positive denominators the rate is monotonically
non-decreasing in `diagnosed_cases` and in `specific_condition_count`. -/
theorem prevalence_rate_monotone
    (p t : ℕ) (hp : 0 < p) (ht : 0 < t) :
    (∀ d1 d2 s : ℕ, d1 ≤ d2 →
        calculate_prevalence_rate p d1 t s ≤ calculate_prevalence_rate p d2 t s) ∧
      (∀ d s1 s2 : ℕ, s1 ≤ s2 →
        calculate_prevalence_rate p d t s1 ≤ calculate_prevalence_rate p d t s2) := by
  have hp' : (0 : ℚ) < (p : ℚ) := by exact_mod_cast hp
  have ht' : (0 : ℚ) < (t : ℚ) := by exact_mod_cast ht
  constructor
  · intro d1 d2 s hd
    rw [prevalence_rate_formula p d1 t s hp ht, prevalence_rate_formula p d2 t s hp ht]
    have h1 : (d1 : ℚ) / (p : ℚ) ≤ (d2 : ℚ) / (p : ℚ) := by
      apply div_le_div_of_nonneg_right _ hp'.le
      · exact_mod_cast hd
    have h2 : (0 : ℚ) ≤ (s : ℚ) / (t : ℚ) := by positivity
    exact mul_le_mul_of_nonneg_right h1 h2
  · intro d s1 s2 hs
    rw [prevalence_rate_formula p d t s1 hp ht, prevalence_rate_formula p d t s2 hp ht]
    have h1 : (s1 : ℚ) / (t : ℚ) ≤ (s2 : ℚ) / (t : ℚ) := by
      apply div_le_div_of_nonneg_right _ ht'.le
      · exact_mod_cast hs
    have h2 : (0 : ℚ) ≤ (d : ℚ) / (p : ℚ) := by positivity
    exact mul_le_mul_of_nonneg_left h1 h2

/-- Witness for C8: monotonicity instantiated at `population=100`,
`total=50`, `diagnosed 40 ≤ 41` and `specific 10 ≤ 11`. -/
theorem prevalence_rate_monotone_witness :
    calculate_prevalence_rate 100 40 50 10 ≤ calculate_prevalence_rate 100 41 50 10 ∧
      calculate_prevalence_rate 100 40 50 10 ≤ calculate_prevalence_rate 100 40 50 11 :=
  ⟨(prevalence_rate_monotone 100 50 (by norm_num) (by norm_num)).1 40 41 10 (by norm_num),
   (prevalence_rate_monotone 100 50 (by norm_num) (by norm_num)).2 40 10 11 (by norm_num)⟩

/-- Sampling with replacement from a non-empty row group returns exactly
the requested number of rows. -/
lemma sampleWithReplacement_length (rows : List Record) (hrows : rows ≠ []) :
    ∀ (n : ℕ) (r : RandomState), ((sampleWithReplacement rows n r).1).length = n := by
  intro n
  induction n with
  | zero => intro r; rfl
  | succ k ih =>
    intro r
    have hlen : 0 < rows.length := List.length_pos.mpr hrows
    have hmod : (r.next.1 % rows.length) < rows.length := Nat.mod_lt _ hlen
    obtain ⟨x, hx⟩ : ∃ x, rows.get? (r.next.1 % rows.length) = some x :=
      ⟨rows.get ⟨_, hmod⟩, List.get?_eq_get hmod⟩
    simp only [sampleWithReplacement, hx, List.length_cons, ih]

/-- The rates list built by the bootstrap loop has one entry per
iteration. -/
lemma bootstrapLoop_length (main follow : List Record) (ss : Option ℕ) (dn : String) :
    ∀ (n : ℕ) (r : RandomState),
      ((bootstrapLoop main follow ss dn n r).1).length = n := by
  intro n
  induction n with
  | zero => intro r; rfl
  | succ k ih =>
    intro r
    simp only [bootstrapLoop, List.length_cons, ih]

/-- Every entry of the bootstrap loop's rates list is a value of
`calculate_disorder_prevalence`, hence lies in `[0, 1]`. -/
lemma bootstrapLoop_mem (main follow : List Record) (ss : Option ℕ) (dn : String) :
    ∀ (n : ℕ) (r : RandomState) (x : ℚ),
      x ∈ (bootstrapLoop main follow ss dn n r).1 → 0 ≤ x ∧ x ≤ 1 := by
  intro n
  induction n with
  | zero => intro r x hx; exact absurd hx (List.not_mem_nil x)
  | succ k ih =>
    intro r x hx
    simp only [bootstrapLoop, List.mem_cons] at hx
    rcases hx with hx | hx
    · rw [hx]
      exact calculate_disorder_prevalence_mem _ _
    · exact ih _ _ hx

/-- A two-row dataset used to instantiate witnesses concretely: one 2016
answer to the main question and one 2016 answer to the follow-up
question. -/
def sampleDf : List Record :=
  [⟨2016, mainQuestion, "Yes"⟩, ⟨2016, followUpQuestion, "Anxiety"⟩]

/-- C4: `bootstrap_prevalence_rate` is deterministic in its seed: the
embedding seeds one generator from `random_state` and threads it through
every draw, so two calls with equal inputs and equal seeds return the same
original rate and the same bootstrap-rates sequence. -/
theorem bootstrap_deterministic (df : List Record) (dn : String) (n : ℕ)
    (ss : Option ℕ) (rs1 rs2 : ℕ) (h : rs1 = rs2) :
    bootstrap_prevalence_rate df dn n ss rs1 = bootstrap_prevalence_rate df dn n ss rs2 := by
  rw [h]

/-- Witness for C4: two runs over the concrete two-row dataset with seed
`42` coincide. -/
theorem bootstrap_deterministic_witness :
    bootstrap_prevalence_rate sampleDf "Anxiety" 2 none 42 =
      bootstrap_prevalence_rate sampleDf "Anxiety" 2 none 42 :=
  bootstrap_deterministic sampleDf "Anxiety" 2 none 42 42 rfl

/-- C5: for every dataset, disorder name, iteration count, sample size and
seed, the bootstrap-rates list has length exactly `n_iterations` and every
entry lies in `[0, 1]`. -/
theorem bootstrap_rates_valid (df : List Record) (dn : String) (n : ℕ)
    (ss : Option ℕ) (rs : ℕ) :
    ((bootstrap_prevalence_rate df dn n ss rs).2).length = n ∧
      ∀ x : ℚ, x ∈ (bootstrap_prevalence_rate df dn n ss rs).2 → 0 ≤ x ∧ x ≤ 1 := by
  constructor
  · exact bootstrapLoop_length _ _ _ _ n _
  · intro x hx
    exact bootstrapLoop_mem _ _ _ _ n _ x hx

/-- Witness for C5: one bootstrap iteration over the concrete dataset
produces the single rate `1`, which lies in `[0, 1]`. -/
theorem bootstrap_rates_valid_witness :
    ((bootstrap_prevalence_rate sampleDf "Anxiety" 1 none 42).2).length = 1 ∧
      (0 ≤ (1 : ℚ) ∧ (1 : ℚ) ≤ 1) :=
  ⟨(bootstrap_rates_valid sampleDf "Anxiety" 1 none 42).1,
   (bootstrap_rates_valid sampleDf "Anxiety" 1 none 42).2 1 (by
     simp [bootstrap_prevalence_rate, bootstrapLoop, pdSample, effSize, sampleWithReplacement,
       RandomState.next, cohort2016, sampleDf, mainQuestion, followUpQuestion,
       calculate_disorder_prevalence, disorderCounts, calculate_prevalence_rate])⟩

/-- C7 counterexample: the source passes
`n=sample_size if sample_size else len(rows)` to `DataFrame.sample`, so
`sample_size = 0` — a given value — is treated by Python truthiness like
`None`: the drawn sample from a one-row group has size `1`, not the given
size `0`. -/
theorem pdSample_size_zero_counterexample :
    ((pdSample [⟨2016, mainQuestion, "Yes"⟩] (some 0) ⟨42⟩).1).length = 1 ∧
      ¬ ((pdSample [⟨2016, mainQuestion, "Yes"⟩] (some 0) ⟨42⟩).1).length = 0 := by
  decide

/-- C7 amended: in each iteration the drawn samples from the non-empty
main and follow-up row groups have size `effSize sample_size len`, i.e.
`sample_size` when it is given and non-zero, and the group's own length
when `sample_size` is `None` or the falsy `0`. -/
theorem bootstrap_sample_sizes (main follow : List Record) (ss : Option ℕ)
    (r : RandomState) (hm : main ≠ []) (hf : follow ≠ []) :
    ((pdSample main ss r).1).length = effSize ss main.length ∧
      ((pdSample follow ss (pdSample main ss r).2).1).length = effSize ss follow.length ∧
      (∀ k : ℕ, effSize (some (k + 1)) main.length = k + 1) ∧
      effSize none main.length = main.length ∧
      effSize (some 0) main.length = main.length :=
  ⟨sampleWithReplacement_length main hm _ _,
   sampleWithReplacement_length follow hf _ _,
   fun _ => rfl, rfl, rfl⟩

/-- Witness for C7 (amended): sizes evaluated on the concrete two-row
dataset's groups with `sample_size = 3`. -/
theorem bootstrap_sample_sizes_witness :
    ((pdSample [⟨2016, mainQuestion, "Yes"⟩] (some 3) ⟨42⟩).1).length =
        effSize (some 3) 1 ∧
      ((pdSample [⟨2016, followUpQuestion, "Anxiety"⟩] (some 3)
            (pdSample [⟨2016, mainQuestion, "Yes"⟩] (some 3) ⟨42⟩).2).1).length =
        effSize (some 3) 1 ∧
      (∀ k : ℕ, effSize (some (k + 1)) 1 = k + 1) ∧
      effSize none 1 = 1 ∧ effSize (some 0) 1 = 1 :=
  bootstrap_sample_sizes [⟨2016, mainQuestion, "Yes"⟩] [⟨2016, followUpQuestion, "Anxiety"⟩]
    (some 3) ⟨42⟩ (by decide) (by decide)

/-- C10: inside `calculate_disorder_prevalence` the diagnosed-cases count
never exceeds the population count and the specific-condition count never
exceeds the total-reports count (each numerator filters on an additional
`AnswerText` conjunct), so the `diagnosed_cases > population` warning
branch of `calculate_prevalence_rate` is unreachable from it and its
result always lies in `[0, 1]`. -/
theorem disorder_counts_subset (df : List Record) (dn : String) :
    (disorderCounts df dn).2.1 ≤ (disorderCounts df dn).1 ∧
      (disorderCounts df dn).2.2.2 ≤ (disorderCounts df dn).2.2.1 ∧
      ¬ (disorderCounts df dn).1 < (disorderCounts df dn).2.1 ∧
      0 ≤ calculate_disorder_prevalence df dn ∧
      calculate_disorder_prevalence df dn ≤ 1 := by
  refine ⟨(disorderCounts_le df dn).1, (disorderCounts_le df dn).2, ?_, ?_, ?_⟩
  · exact Nat.not_lt.mpr (disorderCounts_le df dn).1
  · exact (calculate_disorder_prevalence_mem df dn).1
  · exact (calculate_disorder_prevalence_mem df dn).2

/-- Embedding of `np.percentile` with its default linear interpolation
between order statistics: sort ascending, locate the fractional position
`pos = q/100 * (n-1)`, and interpolate between the order statistics at
`⌊pos⌋` and the following index (clipped to the last index, as numpy
clips). -/
def percentile (l : List ℚ) (q : ℚ) : ℚ :=
  let s := List.insertionSort (· ≤ ·) l
  let pos : ℚ := q / 100 * ((l.length : ℚ) - 1)
  let i : ℕ := (⌊pos⌋).toNat
  let xi := s.getD i 0
  let xj := s.getD (min (i + 1) (l.length - 1)) 0
  xi + (pos - (⌊pos⌋ : ℚ)) * (xj - xi)

/-- Embedding of `calculate_confidence_interval`: the empirical
percentiles of the bootstrap rates at `lower_percentile*100` and
`upper_percentile*100`, with `lower_percentile = (1-confidence_level)/2`
and `upper_percentile = 1 - lower_percentile`. -/
def calculate_confidence_interval (bootstrap_rates : List ℚ) (confidence_level : ℚ) : ℚ × ℚ :=
  let lower_percentile := (1 - confidence_level) / 2
  let upper_percentile := 1 - lower_percentile
  (percentile bootstrap_rates (lower_percentile * 100),
   percentile bootstrap_rates (upper_percentile * 100))

/-- Indexing with a default into a sorted list is monotone while in
bounds. -/
lemma sorted_getD_mono {s : List ℚ} (hs : List.Sorted (· ≤ ·) s) {a b : ℕ}
    (hab : a ≤ b) (hb : b < s.length) : s.getD a 0 ≤ s.getD b 0 := by
  have ha : a < s.length := lt_of_le_of_lt hab hb
  rw [List.getD_eq_getElem s 0 ha, List.getD_eq_getElem s 0 hb]
  have h := hs.rel_get_of_le (a := ⟨a, ha⟩) (b := ⟨b, hb⟩) (Fin.mk_le_mk.mpr hab)
  simpa using h

/-- The linear-interpolation percentile is monotone in the requested
percentage over `[0, 100]`, for a non-empty list. -/
lemma percentile_le_percentile (l : List ℚ) (hl : l ≠ []) {q1 q2 : ℚ}
    (hq0 : 0 ≤ q1) (hq12 : q1 ≤ q2) (hq100 : q2 ≤ 100) :
    percentile l q1 ≤ percentile l q2 := by
  have hn : 1 ≤ l.length := List.length_pos.mpr hl
  set s := List.insertionSort (· ≤ ·) l with hsdef
  have hs : List.Sorted (· ≤ ·) s := List.sorted_insertionSort _ l
  have hslen : s.length = l.length := List.length_insertionSort _ l
  set m := l.length - 1 with hmdef
  have hcast : ((l.length : ℚ) - 1) = (m : ℚ) := by
    rw [hmdef]
    rw [Nat.cast_sub hn, Nat.cast_one]
  set pos1 : ℚ := q1 / 100 * ((l.length : ℚ) - 1) with hpos1def
  set pos2 : ℚ := q2 / 100 * ((l.length : ℚ) - 1) with hpos2def
  have hm0 : (0 : ℚ) ≤ (m : ℚ) := Nat.cast_nonneg m
  have hpos1_nonneg : 0 ≤ pos1 := by
    rw [hpos1def, hcast]
    positivity
  have hposmono : pos1 ≤ pos2 := by
    rw [hpos1def, hpos2def, hcast]
    apply mul_le_mul_of_nonneg_right _ hm0
    apply div_le_div_of_nonneg_right hq12 (by norm_num)
  have hpos2m : pos2 ≤ (m : ℚ) := by
    rw [hpos2def, hcast]
    calc q2 / 100 * (m : ℚ) ≤ 1 * (m : ℚ) := by
          apply mul_le_mul_of_nonneg_right _ hm0
          rw [div_le_one (by norm_num : (0:ℚ) < 100)]
          exact hq100
      _ = (m : ℚ) := one_mul _
  have hi1_nonneg : 0 ≤ ⌊pos1⌋ := Int.floor_nonneg.mpr hpos1_nonneg
  have hi2_nonneg : 0 ≤ ⌊pos2⌋ := Int.floor_nonneg.mpr (le_trans hpos1_nonneg hposmono)
  have hi12 : ⌊pos1⌋ ≤ ⌊pos2⌋ := Int.floor_le_floor hposmono
  have hi2m : ⌊pos2⌋ ≤ (m : ℤ) := by
    have h := Int.floor_le_floor hpos2m
    rwa [Int.floor_natCast] at h
  set a1 := (⌊pos1⌋).toNat with ha1def
  set a2 := (⌊pos2⌋).toNat with ha2def
  have ha12 : a1 ≤ a2 := Int.toNat_le_toNat hi12
  have ha2m : a2 ≤ m := by
    rw [ha2def]
    exact_mod_cast Int.toNat_le.mpr hi2m
  have ha1m : a1 ≤ m := le_trans ha12 ha2m
  have hmlt : m < s.length := by omega
  have hc1 : ((⌊pos1⌋ : ℤ) : ℚ) = (a1 : ℚ) := by
    rw [ha1def]
    exact_mod_cast (Int.toNat_of_nonneg hi1_nonneg).symm
  have hc2 : ((⌊pos2⌋ : ℤ) : ℚ) = (a2 : ℚ) := by
    rw [ha2def]
    exact_mod_cast (Int.toNat_of_nonneg hi2_nonneg).symm
  have hf1_lt : pos1 - ((⌊pos1⌋ : ℤ) : ℚ) < 1 := by
    have := Int.lt_floor_add_one pos1
    linarith
  have hf2_nonneg : 0 ≤ pos2 - ((⌊pos2⌋ : ℤ) : ℚ) := by
    have := Int.floor_le pos2
    linarith
  have hf1_nonneg : 0 ≤ pos1 - ((⌊pos1⌋ : ℤ) : ℚ) := by
    have := Int.floor_le pos1
    linarith
  have e1 : percentile l q1 =
      s.getD a1 0 + (pos1 - ((⌊pos1⌋ : ℤ) : ℚ)) * (s.getD (min (a1 + 1) m) 0 - s.getD a1 0) := rfl
  have e2 : percentile l q2 =
      s.getD a2 0 + (pos2 - ((⌊pos2⌋ : ℤ) : ℚ)) * (s.getD (min (a2 + 1) m) 0 - s.getD a2 0) := rfl
  rw [e1, e2]
  have hx1 : s.getD a1 0 ≤ s.getD (min (a1 + 1) m) 0 :=
    sorted_getD_mono hs (by omega) (by omega)
  have hx2 : s.getD a2 0 ≤ s.getD (min (a2 + 1) m) 0 :=
    sorted_getD_mono hs (by omega) (by omega)
  rcases Nat.eq_or_lt_of_le ha12 with heq | hlt
  · have hieq : ⌊pos1⌋ = ⌊pos2⌋ := by
      rw [← Int.toNat_of_nonneg hi1_nonneg, ← Int.toNat_of_nonneg hi2_nonneg,
        ← ha1def, ← ha2def, heq]
    have hff : pos1 - ((⌊pos1⌋ : ℤ) : ℚ) ≤ pos2 - ((⌊pos2⌋ : ℤ) : ℚ) := by
      rw [hieq]
      linarith
    rw [← heq]
    have hd : (0 : ℚ) ≤ s.getD (min (a1 + 1) m) 0 - s.getD a1 0 := by linarith
    linarith [mul_le_mul_of_nonneg_right hff hd]
  · have hchain1 : s.getD a1 0 + (pos1 - ((⌊pos1⌋ : ℤ) : ℚ)) *
        (s.getD (min (a1 + 1) m) 0 - s.getD a1 0) ≤ s.getD (min (a1 + 1) m) 0 := by
      have hd : (0 : ℚ) ≤ s.getD (min (a1 + 1) m) 0 - s.getD a1 0 := by linarith
      have hmul := mul_le_mul_of_nonneg_right (le_of_lt hf1_lt) hd
      rw [one_mul] at hmul
      linarith
    have hmid : s.getD (min (a1 + 1) m) 0 ≤ s.getD a2 0 :=
      sorted_getD_mono hs (by omega) (by omega)
    have hchain2 : s.getD a2 0 ≤ s.getD a2 0 + (pos2 - ((⌊pos2⌋ : ℤ) : ℚ)) *
        (s.getD (min (a2 + 1) m) 0 - s.getD a2 0) := by
      have hd : (0 : ℚ) ≤ s.getD (min (a2 + 1) m) 0 - s.getD a2 0 := by linarith
      linarith [mul_nonneg hf2_nonneg hd]
    linarith

/-- C3: `calculate_confidence_interval` returns the pair of empirical
linear-interpolation percentiles of the rates at
`((1-confidence_level)/2)*100` and `(1-(1-confidence_level)/2)*100`, and
for a non-empty input with `confidence_level` in `(0, 1)` the pair
satisfies `lower ≤ upper`. -/
theorem confidence_interval_ordered (bootstrap_rates : List ℚ) (confidence_level : ℚ)
    (hne : bootstrap_rates ≠ []) (h0 : 0 < confidence_level) (h1 : confidence_level < 1) :
    calculate_confidence_interval bootstrap_rates confidence_level =
      (percentile bootstrap_rates ((1 - confidence_level) / 2 * 100),
       percentile bootstrap_rates ((1 - (1 - confidence_level) / 2) * 100)) ∧
      (calculate_confidence_interval bootstrap_rates confidence_level).1 ≤
        (calculate_confidence_interval bootstrap_rates confidence_level).2 := by
  refine ⟨rfl, ?_⟩
  apply percentile_le_percentile bootstrap_rates hne
  · linarith
  · linarith
  · linarith

/-- Witness for C3: the interval for `[0.1, 0.2, 0.3, 0.4, 0.5]` at
confidence level `0.8` is ordered. -/
theorem confidence_interval_ordered_witness :
    (calculate_confidence_interval [(1:ℚ)/10, 2/10, 3/10, 4/10, 5/10] (8/10)).1 ≤
      (calculate_confidence_interval [(1:ℚ)/10, 2/10, 3/10, 4/10, 5/10] (8/10)).2 :=
  (confidence_interval_ordered [(1:ℚ)/10, 2/10, 3/10, 4/10, 5/10] (8/10)
    (List.cons_ne_nil _ _) (by norm_num) (by norm_num)).2

/-- The population variance computed inside `np.std` before the square
root: mean of squared deviations from the mean, dividing by `N`. -/
def popVariance (l : List ℚ) : ℚ :=
  (l.map (fun x => (x - l.sum / (l.length : ℚ)) ^ 2)).sum / (l.length : ℚ)

/-- Embedding of `np.std`: the square root of the population variance of
the list. -/
noncomputable def np_std (l : List ℚ) : ℝ :=
  Real.sqrt ((popVariance l : ℚ) : ℝ)

/-- The `BootstrapResult` dictionary returned by
`analyze_disorder_prevalence`. -/
structure BootstrapResult where
  original_rate : ℚ
  confidence_interval : ℚ × ℚ
  bootstrap_rates : List ℚ
  standard_error : ℝ

/-- Embedding of `analyze_disorder_prevalence`: call
`bootstrap_prevalence_rate` (with the default `sample_size = None`), then
`calculate_confidence_interval` on the bootstrap rates, then `np.std` of
the same rates as the standard error. -/
noncomputable def analyze_disorder_prevalence (df : List Record) (disorder_name : String)
    (n_iterations : ℕ) (confidence_level : ℚ) (random_state : ℕ) : BootstrapResult :=
  let br := bootstrap_prevalence_rate df disorder_name n_iterations none random_state
  let ci := calculate_confidence_interval br.2 confidence_level
  { original_rate := br.1
    confidence_interval := ci
    bootstrap_rates := br.2
    standard_error := np_std br.2 }

/-- Modelled from the spec's words (population standard deviation, i.e.
divide by `N`, not `N-1`): `sqrt(Σ (xᵢ-μ)² / N)` with `μ = Σ xᵢ / N`,
computed over the reals on the cast list. -/
noncomputable def popStdDev (l : List ℚ) : ℝ :=
  Real.sqrt
    ((l.map (fun x : ℚ => ((x : ℝ) - (l.map (Rat.cast : ℚ → ℝ)).sum / (l.length : ℝ)) ^ 2)).sum /
      (l.length : ℝ))

/-- Casting a sum of rationals to the reals commutes with summation. -/
lemma cast_list_sum (l : List ℚ) :
    ((l.sum : ℚ) : ℝ) = (l.map (Rat.cast : ℚ → ℝ)).sum := by
  induction l with
  | nil => simp
  | cons x xs ih =>
    simp only [List.map_cons, List.sum_cons, Rat.cast_add, ih]

/-- Casting the sum of a mapped list of rationals to the reals commutes
with the map. -/
lemma cast_sum_map (l : List ℚ) (g : ℚ → ℚ) :
    (((l.map g).sum : ℚ) : ℝ) = (l.map (fun x => ((g x : ℚ) : ℝ))).sum := by
  induction l with
  | nil => simp
  | cons x xs ih =>
    simp only [List.map_cons, List.sum_cons, Rat.cast_add, ih]

/-- The rational population variance, cast to the reals, is the real
population variance of the cast list. -/
lemma cast_popVariance (l : List ℚ) :
    ((popVariance l : ℚ) : ℝ) =
      (l.map (fun x : ℚ => ((x : ℝ) - (l.map (Rat.cast : ℚ → ℝ)).sum / (l.length : ℝ)) ^ 2)).sum /
        (l.length : ℝ) := by
  unfold popVariance
  rw [Rat.cast_div, cast_sum_map l (fun x => (x - l.sum / (l.length : ℚ)) ^ 2)]
  congr 1
  · refine congrArg List.sum (List.map_congr_left ?_)
    intro x _
    rw [← cast_list_sum]
    push_cast
    ring

/-- C9: `analyze_disorder_prevalence` returns the population standard
deviation (divide by `N`, not `N-1`) of the bootstrap-rates list produced
by `bootstrap_prevalence_rate` as `standard_error`, and
`calculate_confidence_interval` of that same list as
`confidence_interval`. -/
theorem analyze_orchestration (df : List Record) (dn : String) (n : ℕ) (c : ℚ) (rs : ℕ) :
    (analyze_disorder_prevalence df dn n c rs).standard_error =
        popStdDev (analyze_disorder_prevalence df dn n c rs).bootstrap_rates ∧
      (analyze_disorder_prevalence df dn n c rs).bootstrap_rates =
        (bootstrap_prevalence_rate df dn n none rs).2 ∧
      (analyze_disorder_prevalence df dn n c rs).confidence_interval =
        calculate_confidence_interval
          (analyze_disorder_prevalence df dn n c rs).bootstrap_rates c ∧
      (analyze_disorder_prevalence df dn n c rs).original_rate =
        (bootstrap_prevalence_rate df dn n none rs).1 := by
  refine ⟨?_, rfl, rfl, rfl⟩
  show np_std (bootstrap_prevalence_rate df dn n none rs).2 =
    popStdDev (bootstrap_prevalence_rate df dn n none rs).2
  unfold np_std popStdDev
  exact congrArg Real.sqrt (cast_popVariance _)
